import Mathlib

/-!
Shallow embedding of the crypto-news crawler `krpynews.py`.

The repository is a single Python file with four functions:

* `extract_news(url, keywords, max_articles, article_elements, class_name,
  title_tag, description_tag, date_tag, date_class)` — fetches a page,
  validates mandatory configuration, selects article fragments, matches
  titles against keyword categories, and builds article records while
  incrementing a global `unique_id_counter`;
* `get_sentiment(text)` — normalizes the black-box analyzer's label to
  `positive` / `negative` / `neutral`;
* `get_system_date()` — the current date formatted `"%B %d, %Y"`;
* `save_to_mongo(data, ...)` — deduplicating persister: queries existing
  ids among the batch's ids, inserts only records with unseen ids, and
  finally overwrites `unique_id_counter` with the maximum persisted id
  (0 when the store is empty).

External collaborators (HTTP fetch + HTML parse, the sentiment pipeline,
the wall clock, the Mongo collection) are modelled as explicit inputs:
the fetch/parse outcome is an `Except String Doc`, the analyzer is a
`String → String` returning its label, the clock is a `Date`, and the
store is a `List ArticleRecord`.  The global `unique_id_counter` is
threaded explicitly as a `Nat`.  Python exceptions (`ValueError` on
missing configuration, propagated fetch errors, the unguarded
`url.split('/')[2]` IndexError) become an `ExtractErr` in `Except`.
-/

/-- One HTML element as the parser exposes it to this program: a tag
name, the class attribute (a list of class names), and its text. -/
structure Elem where
  tag : String
  cls : List String
  text : String
deriving DecidableEq, Repr

/-- One candidate article fragment: a tagged sub-tree, exposed through
`find` over its elements. -/
structure Fragment where
  tag : String
  children : List Elem
deriving DecidableEq, Repr

/-- The parsed document: the sequence of fragments `find_all` ranges
over, in document order. -/
abbrev Doc := List Fragment

/-- Tag filter of BeautifulSoup's `find`: a `None` tag matches any
element, a string matches elements with that tag name. -/
def tagOk (t : Option String) (e : Elem) : Bool :=
  match t with
  | none => true
  | some s => e.tag == s

/-- `article.find(tag, class_=c)` — first element matching the tag
filter whose class attribute contains `c`. -/
def Fragment.findTC (article : Fragment) (t : Option String) (c : String) : Option Elem :=
  article.children.find? (fun e => tagOk t e && e.cls.contains c)

/-- `article.find(tag)` — first element matching the tag filter. -/
def Fragment.findT (article : Fragment) (t : Option String) : Option Elem :=
  article.children.find? (fun e => tagOk t e)

/-- `soup.find_all(tag)` — all fragments with the given tag, in
document order. -/
def findAll (soup : Doc) (tag : String) : List Fragment :=
  soup.filter (fun f => f.tag == tag)

/-- A persisted / extracted article record (the dict built at lines
65–74 of `krpynews.py`). -/
structure ArticleRecord where
  id : Nat
  title : String
  description : String
  date : String
  source : String
  sourceUrl : String
  category : String
  sentiment : String
deriving DecidableEq, Repr

/-- Failures `extract_news` can raise: the `ValueError` of line 38, a
propagated fetch failure from `requests.get`, and the `IndexError` of
the unguarded `url.split('/')[2]` at line 57. -/
inductive ExtractErr where
  | configError (msg : String)
  | fetchError (msg : String)
  | indexError
deriving DecidableEq, Repr

/-- Python's `s.split(sep)` on the character list: splits at every
separator occurrence, keeping empty segments ( `"".split` is `[""]` ). -/
def splitChar : List Char → Char → List (List Char)
  | [], _ => [[]]
  | c :: rest, sep =>
    if c = sep then [] :: splitChar rest sep
    else
      match splitChar rest sep with
      | [] => [[c]]
      | h :: t => (c :: h) :: t

/-- `url.split('/')` as a list of strings. -/
def pySplit (s : String) (sep : Char) : List String :=
  (splitChar s.data sep).map (fun l => String.mk l)

/-- Python's `needle in hay` substring test on character lists. -/
def containsSub (needle hay : List Char) : Bool :=
  hay.tails.any (fun t => needle.isPrefixOf t)

/-- Python's `s.lower()`, as the character list of the lowercased
string. -/
def pyLower (s : String) : List Char :=
  s.data.map Char.toLower

/-- Python's `s.strip()`: drop leading and trailing whitespace. -/
def pyStrip (s : String) : String :=
  String.mk (((s.data.dropWhile Char.isWhitespace).reverse.dropWhile Char.isWhitespace).reverse)

/-- Line 49: `any(keyword.lower() in title_text.lower() for keyword in
category_keywords)` — does any keyword of the category match the text
case-insensitively? -/
def categoryHit (text : String) (p : String × List String) : Bool :=
  p.2.any (fun kw => containsSub (pyLower kw) (pyLower text))

/-- The classification loop of lines 48–49: the first category of the
keyword map (in declaration order) with a case-insensitive keyword hit
in the text, if any. -/
def classify (text : String) (keywords : List (String × List String)) : Option String :=
  (keywords.find? (categoryHit text)).map (fun p => p.1)

/-- `get_sentiment` (lines 79–97): normalize the analyzer's label. -/
def get_sentiment (analyzer : String → String) (text : String) : String :=
  let label := analyzer text
  if label == "POSITIVE" then "positive"
  else if label == "NEGATIVE" then "negative"
  else "neutral"

/-- The wall-clock date supplied by `datetime.now()`. -/
structure Date where
  month : Nat
  day : Nat
  year : Nat
deriving DecidableEq, Repr

/-- `strftime`'s `%B`: the full month name. -/
def monthName (m : Nat) : String :=
  ["January", "February", "March", "April", "May", "June", "July",
   "August", "September", "October", "November", "December"].getD (m - 1) ""

/-- `strftime`'s `%d`: the day zero-padded to two digits. -/
def pad2 (n : Nat) : String :=
  if n < 10 then "0" ++ toString n else toString n

/-- `get_system_date` (lines 99–106): `datetime.now().strftime("%B %d, %Y")`. -/
def get_system_date (now : Date) : String :=
  monthName now.month ++ " " ++ pad2 now.day ++ ", " ++ toString now.year

/-- The per-site extraction context: the arguments of `extract_news`
that the fragment loop (lines 42–75) actually reads, after the
mandatory-field check has unwrapped `class_name`. -/
structure ExtractCtx where
  keywords : List (String × List String)
  url : String
  analyzer : String → String
  now : Date
  class_name : String
  title_tag : Option String
  description_tag : Option String

/-- One iteration of the fragment loop (lines 42–75): find the title
element (skip the fragment when absent), classify the trimmed title
(skip when no category hits), default a missing description to `""`,
stamp the system date, derive the source name as `url.split('/')[2]`
(raising IndexError when that segment does not exist), score sentiment
on title + " " + description, and increment the counter for the
emitted record. -/
def processFragment (ctx : ExtractCtx) (article : Fragment) (counter : Nat) :
    Except ExtractErr (Option ArticleRecord × Nat) :=
  match article.findTC ctx.title_tag ctx.class_name with
  | none => .ok (none, counter)
  | some title_element =>
    let title_text := pyStrip title_element.text
    match classify title_text ctx.keywords with
    | none => .ok (none, counter)
    | some category =>
      let description :=
        match article.findT ctx.description_tag with
        | some d => pyStrip d.text
        | none => ""
      let date_time := get_system_date ctx.now
      let source_url := ctx.url
      match (pySplit ctx.url '/').get? 2 with
      | none => .error .indexError
      | some source_name =>
        let combined_text := title_text ++ " " ++ description
        let sentiment := get_sentiment ctx.analyzer combined_text
        .ok (some { id := counter + 1, title := title_text, description := description,
                    date := date_time, source := source_name, sourceUrl := source_url,
                    category := category, sentiment := sentiment }, counter + 1)

/-- The fragment loop folded over the selected fragments, threading the
global counter and collecting emitted records in order. -/
def extractLoop (ctx : ExtractCtx) : List Fragment → Nat →
    Except ExtractErr (List ArticleRecord × Nat)
  | [], counter => .ok ([], counter)
  | article :: rest, counter =>
    match processFragment ctx article counter with
    | .error e => .error e
    | .ok (none, c) => extractLoop ctx rest c
    | .ok (some r, c) =>
      match extractLoop ctx rest c with
      | .error e => .error e
      | .ok (rs, c2) => .ok (r :: rs, c2)

/-- `extract_news` (lines 14–77).  `fetchResult` is the outcome of
`requests.get(url)` + `BeautifulSoup(...)` (line 34 runs before
anything else, so a fetch failure propagates before any validation);
then the mandatory-field check of lines 37–38 raises `ValueError`
when `article_elements`, `class_name` or `date_tag` is `None`;
otherwise the fragments matching `article_elements` are selected,
truncated to `max_articles`, and folded by the fragment loop starting
from the incoming global counter.  `date_class` is accepted and never
read. -/
def extract_news (fetchResult : Except String Doc) (url : String)
    (keywords : List (String × List String)) (analyzer : String → String) (now : Date)
    (max_articles : Nat)
    (article_elements class_name title_tag description_tag date_tag date_class : Option String)
    (counter : Nat) : Except ExtractErr (List ArticleRecord × Nat) :=
  match fetchResult with
  | .error e => .error (.fetchError e)
  | .ok soup =>
    match article_elements, class_name, date_tag with
    | some ae, some cn, some _ =>
      extractLoop ⟨keywords, url, analyzer, now, cn, title_tag, description_tag⟩
        ((findAll soup ae).take max_articles) counter
    | _, _, _ => .error (.configError "Article elements, class name, and date tag must be provided.")

/-- `find_one({}, sort=[("id", DESCENDING)])['id']` — the maximum id
over the persisted records, 0 when the store is empty. -/
def maxId (docs : List ArticleRecord) : Nat :=
  (docs.map (fun d => d.id)).foldr max 0

/-- `save_to_mongo` (lines 108–136) against an explicit store: collect
the ids of persisted documents whose id occurs in the batch (the one
`$in` query of line 120), keep only batch records whose id was not
found (line 123), bulk-insert them only when some exist (lines
125–126), and resynchronize the global counter to the maximum
persisted id, 0 on an empty store (lines 131–136).  Returns the new
store contents, the new counter value, and the number of inserted
records (the count printed at line 127; 0 when nothing was new). -/
def save_to_mongo (data store : List ArticleRecord) :
    List ArticleRecord × Nat × Nat :=
  let existing_ids :=
    (store.filter (fun doc => data.any (fun a => a.id == doc.id))).map (fun d => d.id)
  let new_articles := data.filter (fun a => !(existing_ids.contains a.id))
  let newStore := if new_articles.isEmpty then store else store ++ new_articles
  (newStore, maxId newStore, new_articles.length)

/-- Does an `extract_news` outcome consist of the mandatory-field
`ValueError`? -/
def isConfigError {α : Type} : Except ExtractErr α → Bool
  | .error (.configError _) => true
  | _ => false

deriving instance DecidableEq for Except

/-! Concrete data for witnesses and for the restart scenario of the
uniqueness claim: a one-category keyword map, two one-fragment
documents carrying distinct Bitcoin headlines, and fixed collaborator
behaviours (an analyzer always answering `POSITIVE`, a fixed clock). -/

/-- A one-category keyword map, as in the `__main__` configuration. -/
def newsKeywords : List (String × List String) := [("BTC", ["Bitcoin"])]

/-- A title element matching `(title_tag := "h4", class_name := "t")`. -/
def titleElemA : Elem := { tag := "h4", cls := ["t"], text := "Bitcoin hits new high" }

/-- A qualifying article fragment. -/
def fragA : Fragment := { tag := "article", children := [titleElemA] }

/-- A document with one qualifying fragment. -/
def docA : Doc := [fragA]

/-- A different headline, for the post-restart run. -/
def titleElemB : Elem := { tag := "h4", cls := ["t"], text := "Bitcoin dips again" }

/-- The post-restart qualifying fragment. -/
def fragB : Fragment := { tag := "article", children := [titleElemB] }

/-- The document fetched by the post-restart run. -/
def docB : Doc := [fragB]

/-- A sentiment collaborator that always answers `POSITIVE`. -/
def demoAnalyzer : String → String := fun _ => "POSITIVE"

/-- A fixed scrape-time clock: March 7, 2024. -/
def demoNow : Date := ⟨3, 7, 2024⟩

/-- The extraction context the demo configuration induces. -/
def demoCtx : ExtractCtx :=
  ⟨newsKeywords, "https://x.co/n", demoAnalyzer, demoNow, "t", some "h4", some "p"⟩

/-- The same context with a url containing no slash at all. -/
def badUrlCtx : ExtractCtx :=
  ⟨newsKeywords, "nourl", demoAnalyzer, demoNow, "t", some "h4", some "p"⟩

/-- One extraction run over the demo site configuration, starting from
the given value of the global counter. -/
def runExtract (doc : Doc) (counter : Nat) : Except ExtractErr (List ArticleRecord × Nat) :=
  extract_news (.ok doc) "https://x.co/n" newsKeywords demoAnalyzer demoNow 100
    (some "article") (some "t") (some "h4") (some "p") (some "time") none counter

/-- The records of a successful extraction outcome. -/
def recsOf (res : Except ExtractErr (List ArticleRecord × Nat)) : List ArticleRecord :=
  match res with
  | .ok (rs, _) => rs
  | .error _ => []

/-- The store contents after the first process persists its run into an
empty store. -/
def firstRunStore : List ArticleRecord := (save_to_mongo (recsOf (runExtract docA 0)) []).1

/-- The record the first run extracts. -/
def demoRecordA : ArticleRecord :=
  { id := 1, title := "Bitcoin hits new high", description := "", date := "March 07, 2024",
    source := "x.co", sourceUrl := "https://x.co/n", category := "BTC", sentiment := "positive" }

/-! Helper lemmas about the persister. -/

/-- For a record of the batch, membership of its id in the queried
`existing_ids` set is exactly "some persisted document has this id". -/
lemma contains_existing_eq (data store : List ArticleRecord) (a : ArticleRecord) (ha : a ∈ data) :
    ((store.filter (fun doc => data.any (fun b => b.id == doc.id))).map (fun d => d.id)).contains a.id
      = store.any (fun d => d.id == a.id) := by
  rw [Bool.eq_iff_iff]
  simp only [List.contains, List.elem_eq_mem, decide_eq_true_iff,
    List.mem_map, List.mem_filter, List.any_eq_true, beq_iff_eq]
  constructor
  · rintro ⟨d, ⟨hd, -⟩, heq⟩
    exact ⟨d, hd, heq⟩
  · rintro ⟨d, hd, heq⟩
    exact ⟨d, ⟨hd, ⟨a, ha, heq.symm⟩⟩, heq⟩

/-- The "new" partition of the batch is exactly the records whose id no
persisted document carries. -/
lemma new_articles_eq (data store : List ArticleRecord) :
    data.filter (fun a =>
        !(((store.filter (fun doc => data.any (fun b => b.id == doc.id))).map (fun d => d.id)).contains a.id))
      = data.filter (fun a => !(store.any (fun d => d.id == a.id))) := by
  apply List.filter_congr
  intro a ha
  rw [contains_existing_eq data store a ha]

/-- The store after a persist call is the old store followed by the
batch records whose id was not yet present. -/
lemma save_store_eq (data store : List ArticleRecord) :
    (save_to_mongo data store).1
      = store ++ data.filter (fun a => !(store.any (fun d => d.id == a.id))) := by
  simp only [save_to_mongo]
  rw [new_articles_eq]
  split
  · next h => rw [List.isEmpty_iff.mp h, List.append_nil]
  · rfl

/-- The reported insertion count is the size of the "new" partition. -/
lemma save_count_eq (data store : List ArticleRecord) :
    (save_to_mongo data store).2.2
      = (data.filter (fun a => !(store.any (fun d => d.id == a.id)))).length := by
  simp only [save_to_mongo]
  rw [new_articles_eq]

/-- After persisting a batch, every id of the batch occurs in the
store. -/
lemma mem_save_store (data store : List ArticleRecord) (a : ArticleRecord) (ha : a ∈ data) :
    (save_to_mongo data store).1.any (fun d => d.id == a.id) = true := by
  rw [save_store_eq, List.any_append]
  by_cases hb : store.any (fun d => d.id == a.id) = true
  · simp [hb]
  · have hx : a ∈ data.filter (fun b => !(store.any (fun d => d.id == b.id))) := by
      rw [List.mem_filter]
      exact ⟨ha, by simp [Bool.not_eq_true] at hb ⊢; exact hb⟩
    have h2 : (data.filter (fun b => !(store.any (fun d => d.id == b.id)))).any
        (fun d => d.id == a.id) = true :=
      List.any_eq_true.mpr ⟨a, hx, by simp⟩
    simp [h2]

/-- Re-persisting a batch finds every id already present, so the second
"new" partition is empty. -/
lemma second_new_nil (data store : List ArticleRecord) :
    data.filter (fun a => !((save_to_mongo data store).1.any (fun d => d.id == a.id))) = [] := by
  rw [List.filter_eq_nil_iff]
  intro a ha
  rw [mem_save_store data store a ha]
  simp

/-! Helper lemmas about the fragment loop. -/

/-- A fragment with no element matching the title selector and class is
skipped: no record, counter untouched. -/
lemma processFragment_title_none (ctx : ExtractCtx) (article : Fragment) (counter : Nat)
    (h : article.findTC ctx.title_tag ctx.class_name = none) :
    processFragment ctx article counter = .ok (none, counter) := by
  unfold processFragment
  rw [h]

/-- A fragment whose trimmed title matches no category is skipped: no
record, counter untouched. -/
lemma processFragment_classify_none (ctx : ExtractCtx) (article : Fragment) (title_element : Elem)
    (counter : Nat)
    (h1 : article.findTC ctx.title_tag ctx.class_name = some title_element)
    (h2 : classify (pyStrip title_element.text) ctx.keywords = none) :
    processFragment ctx article counter = .ok (none, counter) := by
  unfold processFragment
  rw [h1]
  simp only [h2]

/-- A successful fragment step either skips (counter unchanged) or
emits one record carrying the incremented counter as id and the system
date. -/
lemma processFragment_shape (ctx : ExtractCtx) (article : Fragment) (counter : Nat)
    {o : Option ArticleRecord} {c : Nat}
    (h : processFragment ctx article counter = .ok (o, c)) :
    (o = none ∧ c = counter)
    ∨ (∃ r, o = some r ∧ c = counter + 1 ∧ r.id = counter + 1
        ∧ r.date = get_system_date ctx.now) := by
  unfold processFragment at h
  cases ht : article.findTC ctx.title_tag ctx.class_name with
  | none =>
    rw [ht] at h
    injection h with h1
    injection h1 with h2 h3
    exact .inl ⟨h2.symm, h3.symm⟩
  | some title_element =>
    rw [ht] at h
    cases hc : classify (pyStrip title_element.text) ctx.keywords with
    | none =>
      simp only [hc] at h
      injection h with h1
      injection h1 with h2 h3
      exact .inl ⟨h2.symm, h3.symm⟩
    | some category =>
      simp only [hc] at h
      cases hs : (pySplit ctx.url '/').get? 2 with
      | none =>
        simp only [hs] at h
        cases h
      | some source_name =>
        simp only [hs] at h
        injection h with h1
        injection h1 with h2 h3
        exact .inr ⟨_, h2.symm, h3.symm, rfl, rfl⟩

/-- The only exception a fragment step can raise is the IndexError of
`url.split('/')[2]`. -/
lemma processFragment_error (ctx : ExtractCtx) (article : Fragment) (counter : Nat)
    {e : ExtractErr} (h : processFragment ctx article counter = .error e) :
    e = .indexError := by
  unfold processFragment at h
  cases ht : article.findTC ctx.title_tag ctx.class_name with
  | none => rw [ht] at h; cases h
  | some title_element =>
    rw [ht] at h
    cases hc : classify (pyStrip title_element.text) ctx.keywords with
    | none => simp only [hc] at h; cases h
    | some category =>
      simp only [hc] at h
      cases hs : (pySplit ctx.url '/').get? 2 with
      | none =>
        simp only [hs] at h
        injection h with h1
        exact h1.symm
      | some source_name =>
        simp only [hs] at h
        cases h

/-- Across a successful loop run, the counter advances by exactly the
number of emitted records. -/
lemma extractLoop_counter (ctx : ExtractCtx) :
    ∀ (frags : List Fragment) (counter : Nat) (recs : List ArticleRecord) (c2 : Nat),
      extractLoop ctx frags counter = .ok (recs, c2) → c2 = counter + recs.length := by
  intro frags
  induction frags with
  | nil =>
    intro counter recs c2 h
    simp only [extractLoop] at h
    injection h with h1
    injection h1 with h2 h3
    simp [h2.symm, h3.symm]
  | cons a rest ih =>
    intro counter recs c2 h
    simp only [extractLoop] at h
    cases hp : processFragment ctx a counter with
    | error e => rw [hp] at h; cases h
    | ok oc =>
      obtain ⟨o, c⟩ := oc
      rw [hp] at h
      cases o with
      | none =>
        have hc : c = counter := by
          rcases processFragment_shape ctx a counter hp with ⟨-, hcc⟩ | ⟨r, hr, -⟩
          · exact hcc
          · cases hr
        have := ih c recs c2 h
        omega
      | some r =>
        dsimp only at h
        cases hl : extractLoop ctx rest c with
        | error e => rw [hl] at h; cases h
        | ok rc =>
          obtain ⟨rs, c3⟩ := rc
          rw [hl] at h
          injection h with h1
          injection h1 with h2 h3
          have hc : c = counter + 1 := by
            rcases processFragment_shape ctx a counter hp with ⟨ho, -⟩ | ⟨r2, -, hcc, -⟩
            · cases ho
            · exact hcc
          have := ih c rs c3 hl
          subst h2
          subst h3
          simp only [List.length_cons]
          omega

/-- Every record a successful loop run emits carries the system date. -/
lemma extractLoop_date (ctx : ExtractCtx) :
    ∀ (frags : List Fragment) (counter : Nat) (recs : List ArticleRecord) (c2 : Nat),
      extractLoop ctx frags counter = .ok (recs, c2) →
      ∀ r ∈ recs, r.date = get_system_date ctx.now := by
  intro frags
  induction frags with
  | nil =>
    intro counter recs c2 h
    simp only [extractLoop] at h
    injection h with h1
    injection h1 with h2 h3
    intro r hr
    rw [h2.symm] at hr
    cases hr
  | cons a rest ih =>
    intro counter recs c2 h
    simp only [extractLoop] at h
    cases hp : processFragment ctx a counter with
    | error e => rw [hp] at h; cases h
    | ok oc =>
      obtain ⟨o, c⟩ := oc
      rw [hp] at h
      cases o with
      | none => exact ih c recs c2 h
      | some r0 =>
        dsimp only at h
        cases hl : extractLoop ctx rest c with
        | error e => rw [hl] at h; cases h
        | ok rc =>
          obtain ⟨rs, c3⟩ := rc
          rw [hl] at h
          injection h with h1
          injection h1 with h2 h3
          intro r hr
          rw [h2.symm] at hr
          cases hr with
          | head =>
            rcases processFragment_shape ctx a counter hp with ⟨ho, -⟩ | ⟨r2, hr2, -, -, hdate⟩
            · cases ho
            · cases hr2
              exact hdate
          | tail _ htail => exact ih c rs c3 hl r htail

/-- The only exception the loop can raise is the IndexError of
`url.split('/')[2]`; in particular it never raises the configuration
`ValueError`. -/
lemma extractLoop_error_shape (ctx : ExtractCtx) :
    ∀ (frags : List Fragment) (counter : Nat) (e : ExtractErr),
      extractLoop ctx frags counter = .error e → e = .indexError := by
  intro frags
  induction frags with
  | nil =>
    intro counter e h
    simp only [extractLoop] at h
    cases h
  | cons a rest ih =>
    intro counter e h
    simp only [extractLoop] at h
    cases hp : processFragment ctx a counter with
    | error e2 =>
      rw [hp] at h
      injection h with h1
      rw [h1.symm]
      exact processFragment_error ctx a counter hp
    | ok oc =>
      obtain ⟨o, c⟩ := oc
      rw [hp] at h
      cases o with
      | none => exact ih c e h
      | some r =>
        dsimp only at h
        cases hl : extractLoop ctx rest c with
        | error e2 =>
          rw [hl] at h
          injection h with h1
          rw [h1.symm]
          exact ih c e2 hl
        | ok rc =>
          obtain ⟨rs, c3⟩ := rc
          rw [hl] at h
          cases h

/-! Helper lemmas about splitting and classification. -/

/-- Python's split never returns an empty list. -/
lemma splitChar_ne_nil (l : List Char) (sep : Char) : splitChar l sep ≠ [] := by
  cases l with
  | nil => simp [splitChar]
  | cons c rest =>
    simp only [splitChar]
    split
    · simp
    · split
      · simp
      · simp

/-- Python's split returns one more segment than there are separator
occurrences. -/
lemma splitChar_length (l : List Char) (sep : Char) :
    (splitChar l sep).length = l.count sep + 1 := by
  induction l with
  | nil => simp [splitChar]
  | cons c rest ih =>
    simp only [splitChar]
    split
    · next hceq =>
      have hb : (c == sep) = true := by simp [beq_iff_eq, hceq]
      simp [List.count_cons, hb, ih]
    · next hcne =>
      cases hsc : splitChar rest sep with
      | nil => exact absurd hsc (splitChar_ne_nil rest sep)
      | cons hd tl =>
        rw [hsc] at ih
        have hb : (c == sep) = false := by simp [beq_iff_eq]; exact hcne
        simp [List.length_cons, List.count_cons, hb] at *
        omega

/-- `url.split('/')[2]` exists exactly when the url has at least two
slashes. -/
lemma pySplit_get2_none_iff (url : String) :
    (pySplit url '/').get? 2 = none ↔ url.data.count '/' < 2 := by
  rw [List.get?_eq_none]
  unfold pySplit
  rw [List.length_map, splitChar_length]
  omega

/-- `find?` skips a leading run of non-matching elements. -/
lemma find?_append_of_none {α : Type} {p : α → Bool} (l1 l2 : List α)
    (h : ∀ x ∈ l1, p x = false) : (l1 ++ l2).find? p = l2.find? p := by
  induction l1 with
  | nil => rfl
  | cons a t ih =>
    have ha : p a = false := h a (List.mem_cons_self a t)
    rw [List.cons_append, List.find?_cons_of_neg _ (by simp [ha]),
      ih (fun x hx => h x (List.mem_cons_of_mem a hx))]

/-! The claims. -/

/-- C1 — the claim fails on the code.  `unique_id_counter` starts at 0
(line 12) and is resynchronized to the maximum persisted id only at the
very end of `save_to_mongo` (lines 131–136), never before an extraction
run.  Demonstration at the failing input: a first process extracts one
qualifying article from counter 0 (id 1), persists it, and resyncs to
1; after a restart the counter is 0 again, so extracting a genuinely
different article reassigns the already persisted id 1, and persisting
that batch inserts nothing — the new article is silently dropped, the
store is unchanged. -/
theorem C1_restart_id_reuse :
    (save_to_mongo (recsOf (runExtract docA 0)) []).2.1 = 1
    ∧ firstRunStore.map (fun r => r.id) = [1]
    ∧ (recsOf (runExtract docB 0)).map (fun r => r.id) = [1]
    ∧ recsOf (runExtract docB 0) ≠ recsOf (runExtract docA 0)
    ∧ (save_to_mongo (recsOf (runExtract docB 0)) firstRunStore).2.2 = 0
    ∧ (save_to_mongo (recsOf (runExtract docB 0)) firstRunStore).1 = firstRunStore :=
  ⟨by decide, by decide, by decide, by decide, by decide, by decide⟩

/-- C2 — persisting is idempotent: persisting the same batch into the
store a second time inserts nothing (the store is unchanged) and the
second call's inserted-count is 0. -/
theorem C2_idempotent_persist (data store : List ArticleRecord) :
    (save_to_mongo data (save_to_mongo data store).1).1 = (save_to_mongo data store).1
    ∧ (save_to_mongo data (save_to_mongo data store).1).2.2 = 0 := by
  constructor
  · rw [save_store_eq data (save_to_mongo data store).1, second_new_nil, List.append_nil]
  · rw [save_count_eq data (save_to_mongo data store).1, second_new_nil]
    rfl

/-- C3 — persist inserts exactly the batch records whose id is not
found among the persisted ids (appended in one bulk operation), reports
their count, and performs no write when that partition is empty. -/
theorem C3_persist_contract (data store : List ArticleRecord) :
    (save_to_mongo data store).1
        = store ++ data.filter (fun a => !(store.any (fun d => d.id == a.id)))
    ∧ (save_to_mongo data store).2.2
        = (data.filter (fun a => !(store.any (fun d => d.id == a.id)))).length
    ∧ ((data.filter (fun a => !(store.any (fun d => d.id == a.id)))).isEmpty = true →
        (save_to_mongo data store).1 = store) :=
  ⟨save_store_eq data store, save_count_eq data store, fun h => by
    rw [save_store_eq data store, List.isEmpty_iff.mp h, List.append_nil]⟩

/-- C3 witness: persisting an empty batch into an empty store writes
nothing. -/
theorem C3_persist_contract_witness : (save_to_mongo [] []).1 = ([] : List ArticleRecord) :=
  (C3_persist_contract [] []).2.2 (by rfl)

/-- C4 — classification checks the keyword map in declaration order and
returns the first category with a case-insensitive keyword hit, `none`
when no category hits; on the map BTC ↦ [Bitcoin], ETH ↦ [Ethereum] and
the text "Bitcoin and Ethereum surge" it returns BTC. -/
theorem C4_classify_first_match :
    (∀ (text : String) (pre post : List (String × List String)) (category : String)
        (kws : List String),
        (∀ p ∈ pre, categoryHit text p = false) →
        categoryHit text (category, kws) = true →
        classify text (pre ++ (category, kws) :: post) = some category)
    ∧ (∀ (text : String) (keywords : List (String × List String)),
        (∀ p ∈ keywords, categoryHit text p = false) →
        classify text keywords = none)
    ∧ classify "Bitcoin and Ethereum surge" [("BTC", ["Bitcoin"]), ("ETH", ["Ethereum"])]
        = some "BTC" := by
  refine ⟨?_, ?_, by decide⟩
  · intro text pre post category kws hpre hhit
    unfold classify
    rw [find?_append_of_none pre _ hpre, List.find?_cons_of_pos _ hhit]
    rfl
  · intro text keywords h
    unfold classify
    rw [List.find?_eq_none.mpr (fun x hx => by simp [h x hx])]
    rfl

/-- C4 witness: the spec's tie-break example, via the first-match
conjunct with an empty prefix. -/
theorem C4_classify_first_match_witness :
    classify "Bitcoin and Ethereum surge" [("BTC", ["Bitcoin"]), ("ETH", ["Ethereum"])]
      = some "BTC" :=
  C4_classify_first_match.1 "Bitcoin and Ethereum surge" [] [("ETH", ["Ethereum"])] "BTC"
    ["Bitcoin"] (fun p hp => absurd hp (List.not_mem_nil p)) (by decide)

/-- C5 — given a successful fetch, `extract_news` raises the
configuration `ValueError` exactly when the article selector, the title
class name, or the date selector is unset; when all three are provided
no such error is raised. -/
theorem C5_config_error_iff (doc : Doc) (url : String) (keywords : List (String × List String))
    (analyzer : String → String) (now : Date) (max_articles : Nat)
    (article_elements class_name title_tag description_tag date_tag date_class : Option String)
    (counter : Nat) :
    isConfigError (extract_news (.ok doc) url keywords analyzer now max_articles
        article_elements class_name title_tag description_tag date_tag date_class counter) = true
      ↔ (article_elements = none ∨ class_name = none ∨ date_tag = none) := by
  constructor
  · intro h
    cases article_elements with
    | none => exact .inl rfl
    | some ae =>
      cases class_name with
      | none => exact .inr (.inl rfl)
      | some cn =>
        cases date_tag with
        | none => exact .inr (.inr rfl)
        | some dt =>
          exfalso
          simp only [extract_news] at h
          cases hres : extractLoop ⟨keywords, url, analyzer, now, cn, title_tag, description_tag⟩
              ((findAll doc ae).take max_articles) counter with
          | error e =>
            rw [hres] at h
            have he := extractLoop_error_shape _ _ _ _ hres
            subst he
            simp [isConfigError] at h
          | ok p =>
            rw [hres] at h
            simp [isConfigError] at h
  · intro h
    have hred : extract_news (.ok doc) url keywords analyzer now max_articles article_elements
        class_name title_tag description_tag date_tag date_class counter
        = .error (.configError "Article elements, class name, and date tag must be provided.") := by
      rcases h with h | h | h
      · subst h
        cases class_name <;> cases date_tag <;> rfl
      · subst h
        cases article_elements <;> cases date_tag <;> rfl
      · subst h
        cases article_elements <;> cases class_name <;> rfl
    rw [hred]
    rfl

/-- C5 witness: with the article selector unset (other fields set), the
configuration error is raised. -/
theorem C5_config_error_iff_witness :
    isConfigError (extract_news (.ok docA) "https://x.co/n" newsKeywords demoAnalyzer demoNow 100
        none (some "t") (some "h4") (some "p") (some "time") none 0) = true :=
  (C5_config_error_iff docA "https://x.co/n" newsKeywords demoAnalyzer demoNow 100
      none (some "t") (some "h4") (some "p") (some "time") none 0).mpr (Or.inl rfl)

/-- C6 — the counter advances exactly once per emitted record: a
successful run ends with counter plus the number of emitted records,
and a fragment with no title match, or whose title matches no category,
yields no record and leaves the counter unchanged. -/
theorem C6_counter_accounting :
    (∀ (ctx : ExtractCtx) (frags : List Fragment) (counter : Nat)
        (recs : List ArticleRecord) (c2 : Nat),
        extractLoop ctx frags counter = .ok (recs, c2) → c2 = counter + recs.length)
    ∧ (∀ (ctx : ExtractCtx) (article : Fragment) (counter : Nat),
        article.findTC ctx.title_tag ctx.class_name = none →
        processFragment ctx article counter = .ok (none, counter))
    ∧ (∀ (ctx : ExtractCtx) (article : Fragment) (title_element : Elem) (counter : Nat),
        article.findTC ctx.title_tag ctx.class_name = some title_element →
        classify (pyStrip title_element.text) ctx.keywords = none →
        processFragment ctx article counter = .ok (none, counter)) :=
  ⟨extractLoop_counter, processFragment_title_none, processFragment_classify_none⟩

/-- C6 witness: the one-fragment demo run advances the counter by one
emitted record, and a childless fragment is skipped with the counter
untouched. -/
theorem C6_counter_accounting_witness :
    (1 : Nat) = 0 + [demoRecordA].length
    ∧ processFragment demoCtx { tag := "article", children := [] } 0 = .ok (none, 0) :=
  ⟨C6_counter_accounting.1 demoCtx [fragA] 0 [demoRecordA] 1 (by decide),
   C6_counter_accounting.2.1 demoCtx { tag := "article", children := [] } 0 (by decide)⟩

/-- C7 — every emitted record's date is the system date at scrape time
(`"%B %d, %Y"`); the extraction result does not depend on `date_class`
at all, and the format matches the spec's example March 07, 2024. -/
theorem C7_date_from_system :
    (∀ (fetchResult : Except String Doc) (url : String) (keywords : List (String × List String))
        (analyzer : String → String) (now : Date) (max_articles : Nat)
        (article_elements class_name title_tag description_tag date_tag date_class : Option String)
        (counter : Nat) (recs : List ArticleRecord) (c2 : Nat),
        extract_news fetchResult url keywords analyzer now max_articles article_elements
            class_name title_tag description_tag date_tag date_class counter = .ok (recs, c2) →
        ∀ r ∈ recs, r.date = get_system_date now)
    ∧ (∀ (fetchResult : Except String Doc) (url : String) (keywords : List (String × List String))
        (analyzer : String → String) (now : Date) (max_articles : Nat)
        (article_elements class_name title_tag description_tag date_tag dc1 dc2 : Option String)
        (counter : Nat),
        extract_news fetchResult url keywords analyzer now max_articles article_elements
            class_name title_tag description_tag date_tag dc1 counter
          = extract_news fetchResult url keywords analyzer now max_articles article_elements
            class_name title_tag description_tag date_tag dc2 counter)
    ∧ get_system_date ⟨3, 7, 2024⟩ = "March 07, 2024" := by
  refine ⟨?_, fun _ _ _ _ _ _ _ _ _ _ _ _ _ _ => rfl, by decide⟩
  intro fetchResult url keywords analyzer now max_articles ae cn tt de dt dc counter recs c2 h
  cases fetchResult with
  | error e => cases h
  | ok doc =>
    cases ae with
    | none => cases h
    | some ae0 =>
      cases cn with
      | none => cases h
      | some cn0 =>
        cases dt with
        | none => cases h
        | some dt0 =>
          have h2 : extractLoop ⟨keywords, url, analyzer, now, cn0, tt, de⟩
              ((findAll doc ae0).take max_articles) counter = .ok (recs, c2) := h
          exact extractLoop_date _ _ _ _ _ h2

/-- C7 witness: the record of the demo run is stamped with the system
date. -/
theorem C7_date_from_system_witness : demoRecordA.date = get_system_date demoNow :=
  C7_date_from_system.1 (.ok docA) "https://x.co/n" newsKeywords demoAnalyzer demoNow 100
    (some "article") (some "t") (some "h4") (some "p") (some "time") none 0 [demoRecordA] 1
    (by decide) demoRecordA (by simp)

/-- C8 — a fragment with a matched title and a matching category but no
element matching the description selector still emits a record, whose
description is the empty string (given the url's third slash-segment
exists, C9's precondition for the step to succeed at all). -/
theorem C8_empty_description (ctx : ExtractCtx) (article : Fragment) (title_element : Elem)
    (category : String) (source_name : String) (counter : Nat)
    (h1 : article.findTC ctx.title_tag ctx.class_name = some title_element)
    (h2 : classify (pyStrip title_element.text) ctx.keywords = some category)
    (h3 : article.findT ctx.description_tag = none)
    (h4 : (pySplit ctx.url '/').get? 2 = some source_name) :
    ∃ r, processFragment ctx article counter = .ok (some r, counter + 1)
      ∧ r.description = "" := by
  unfold processFragment
  rw [h1]
  simp only [h2, h3, h4]
  exact ⟨_, rfl, rfl⟩

/-- C8 witness: the demo fragment has a title but no description
element, and its record's description is empty. -/
theorem C8_empty_description_witness :
    ∃ r, processFragment demoCtx fragA 0 = .ok (some r, 1) ∧ r.description = "" :=
  C8_empty_description demoCtx fragA titleElemA "BTC" "x.co" 0
    (by decide) (by decide) (by decide) (by decide)

/-- C9 — deriving the source name indexes `url.split('/')[2]` without a
guard: a qualifying fragment succeeds whenever the url has at least two
slashes, and with fewer than two slashes the step raises IndexError
instead of emitting a record with a defaulted source. -/
theorem C9_source_index_guard :
    (∀ (ctx : ExtractCtx) (article : Fragment) (title_element : Elem)
        (category : String) (counter : Nat),
        2 ≤ ctx.url.data.count '/' →
        article.findTC ctx.title_tag ctx.class_name = some title_element →
        classify (pyStrip title_element.text) ctx.keywords = some category →
        ∃ r, processFragment ctx article counter = .ok (some r, counter + 1))
    ∧ (∀ (ctx : ExtractCtx) (article : Fragment) (title_element : Elem)
        (category : String) (counter : Nat),
        ctx.url.data.count '/' < 2 →
        article.findTC ctx.title_tag ctx.class_name = some title_element →
        classify (pyStrip title_element.text) ctx.keywords = some category →
        processFragment ctx article counter = .error .indexError) := by
  constructor
  · intro ctx article title_element category counter hurl h1 h2
    have hget : (pySplit ctx.url '/').get? 2 ≠ none := by
      intro hcontra
      rw [pySplit_get2_none_iff] at hcontra
      omega
    obtain ⟨source_name, hs⟩ := Option.ne_none_iff_exists'.mp hget
    unfold processFragment
    rw [h1]
    simp only [h2, hs]
    exact ⟨_, rfl⟩
  · intro ctx article title_element category counter hurl h1 h2
    have hget : (pySplit ctx.url '/').get? 2 = none := (pySplit_get2_none_iff ctx.url).mpr hurl
    unfold processFragment
    rw [h1]
    simp only [h2, hget]

/-- C9 witness: the demo url (three slashes) succeeds; a slashless url
makes the same qualifying fragment raise IndexError. -/
theorem C9_source_index_guard_witness :
    (∃ r, processFragment demoCtx fragA 0 = .ok (some r, 1))
    ∧ processFragment badUrlCtx fragA 0 = .error .indexError :=
  ⟨C9_source_index_guard.1 demoCtx fragA titleElemA "BTC" 0 (by decide) (by decide) (by decide),
   C9_source_index_guard.2 badUrlCtx fragA titleElemA "BTC" 0 (by decide) (by decide) (by decide)⟩

/-- C10 — the fetch outcome is consumed before the mandatory-field
check: a failed fetch is reported as the fetch error whatever the
configuration (even with mandatory fields missing), and only after a
successful fetch does a missing mandatory field raise the configuration
`ValueError`. -/
theorem C10_fetch_before_validation :
    (∀ (e : String) (url : String) (keywords : List (String × List String))
        (analyzer : String → String) (now : Date) (max_articles : Nat)
        (article_elements class_name title_tag description_tag date_tag date_class : Option String)
        (counter : Nat),
        extract_news (.error e) url keywords analyzer now max_articles article_elements
            class_name title_tag description_tag date_tag date_class counter
          = .error (.fetchError e))
    ∧ (∀ (doc : Doc) (url : String) (keywords : List (String × List String))
        (analyzer : String → String) (now : Date) (max_articles : Nat)
        (article_elements class_name title_tag description_tag date_tag date_class : Option String)
        (counter : Nat),
        (article_elements = none ∨ class_name = none ∨ date_tag = none) →
        extract_news (.ok doc) url keywords analyzer now max_articles article_elements
            class_name title_tag description_tag date_tag date_class counter
          = .error (.configError "Article elements, class name, and date tag must be provided.")) := by
  constructor
  · intro e url keywords analyzer now max_articles ae cn tt de dt dc counter
    rfl
  · intro doc url keywords analyzer now max_articles ae cn tt de dt dc counter h
    rcases h with h | h | h
    · subst h
      cases cn <;> cases dt <;> rfl
    · subst h
      cases ae <;> cases dt <;> rfl
    · subst h
      cases ae <;> cases cn <;> rfl

/-- C10 witness: a failed fetch is reported as a fetch error even with
the article selector unset; the same unset selector after a successful
fetch raises the configuration error. -/
theorem C10_fetch_before_validation_witness :
    extract_news (.error "boom") "u" newsKeywords demoAnalyzer demoNow 100
        none (some "t") (some "h4") (some "p") (some "time") none 0
      = .error (.fetchError "boom")
    ∧ extract_news (.ok docA) "https://x.co/n" newsKeywords demoAnalyzer demoNow 100
        none (some "t") (some "h4") (some "p") (some "time") none 0
      = .error (.configError "Article elements, class name, and date tag must be provided.") :=
  ⟨C10_fetch_before_validation.1 "boom" "u" newsKeywords demoAnalyzer demoNow 100
      none (some "t") (some "h4") (some "p") (some "time") none 0,
   C10_fetch_before_validation.2 docA "https://x.co/n" newsKeywords demoAnalyzer demoNow 100
      none (some "t") (some "h4") (some "p") (some "time") none 0 (Or.inl rfl)⟩
